import Mathlib

/-!
Verification development for the ViralReplicator client.

This file gives a shallow embedding of the data model and of the logic of
the three source modules the specification talks about:

  * src/types.ts                         (StoryboardScene, AnalysisResult, VideoFile)
  * src/services/geminiService.ts        (analyzeVideoScript, generateVeoVideo)
  * src/components/VideoUploader.tsx     (handleFileChange)
  * src/components/AnalysisResultView.tsx (handleSceneUpdate, handleMergeVideos,
                                          handleVideoGenerated)

Network calls, timers and DOM media elements are modelled by passing the
environment's responses in explicitly (a RemoteEnv record, a list of polled
operation states, an abstract merge-body outcome) and by recording the
externally visible actions of the code as an explicit trace of steps/events.
Machine integers are modelled as Nat/Int; JavaScript strings as String.
-/

namespace ViralReplicator

/-- Data model from src/types.ts: one storyboard scene.  The TypeScript
field voiceoverScript is optional, hence Option. -/
structure StoryboardScene where
  id : Int
  timeRange : String
  visualDescription : String
  cameraMovement : String
  aiImagePrompt : String
  aiVideoPrompt : String
  voiceoverScript : Option String
deriving DecidableEq, Repr

/-- Data model from src/types.ts: the analysis result returned by the
Gemini analysis call. -/
structure AnalysisResult where
  title : String
  summary : String
  scenes : List StoryboardScene
deriving DecidableEq, Repr

/-- Model of a browser File object as the code observes it: the size
property consulted by the branching logic, the MIME type property, the
display name, and the byte content read by FileReader. -/
structure File where
  name : String
  type : String
  size : Nat
  content : List Nat
deriving DecidableEq, Repr

/-- Data model from src/types.ts: the value handed to onFileSelect by the
VideoUploader. -/
structure VideoFile where
  file : File
  previewUrl : String
  base64Data : Option String
  mimeType : String
deriving DecidableEq, Repr

/-! Base64 encoding, used to model fileToBase64 (geminiService.ts lines
169-179): readAsDataURL produces a data URL whose payload after the comma
is the standard base64 encoding of the file bytes. -/

/-- Standard base64 alphabet. -/
def base64Table : List Char :=
  "ABCDEFGHIJKLMNOPQRSTUVWXYZabcdefghijklmnopqrstuvwxyz0123456789+/".toList

/-- Character for one 6-bit group. -/
def b64Char (n : Nat) : Char := base64Table.getD n 'A'

/-- Base64 encoding of a byte list, with '=' padding. -/
def base64Encode : List Nat → String
  | [] => ""
  | [b1] =>
      String.mk [b64Char (b1 / 4), b64Char (b1 % 4 * 16), '=', '=']
  | [b1, b2] =>
      String.mk [b64Char (b1 / 4), b64Char (b1 % 4 * 16 + b2 / 16),
                 b64Char (b2 % 16 * 4), '=']
  | b1 :: b2 :: b3 :: rest =>
      String.mk [b64Char (b1 / 4), b64Char (b1 % 4 * 16 + b2 / 16),
                 b64Char (b2 % 16 * 4 + b3 / 64), b64Char (b3 % 64)]
        ++ base64Encode rest

/-- Model of fileToBase64 (geminiService.ts lines 169-179): reads the whole
file content and base64-encodes it. -/
def fileToBase64 (f : File) : String := base64Encode f.content

/-! Embedding of src/services/geminiService.ts. -/

/-- INLINE_SIZE_LIMIT from geminiService.ts line 7: 10 * 1024 * 1024 bytes. -/
def INLINE_SIZE_LIMIT : Nat := 10 * 1024 * 1024

/-- JavaScript falsy-string defaulting: the idiom (s or-else d) used by the
source as file.type with a fallback, which takes the fallback exactly when
the string is empty. -/
def strOrElse (s d : String) : String := if s = "" then d else s

/-- One externally visible transfer action of analyzeVideoScript's
file-handling phase. -/
inductive UploadStep where
  /-- fileToBase64: read the entire file into memory and base64-encode it. -/
  | readFileBase64
  /-- Initial resumable POST of uploadFileToGemini (lines 57-67). -/
  | resumableStart
  /-- PUT of the file bytes with the finalize directive (lines 91-101). -/
  | resumableTransfer
  /-- One GET of the file status inside waitForFileActive (line 145). -/
  | pollStatus
deriving DecidableEq, Repr

/-- The video part of the generateContent request assembled by
analyzeVideoScript: inline base64 data for small files, a remote file
reference for large ones. -/
inductive Part where
  | inlineData (mimeType : String) (data : String)
  | fileData (mimeType : String) (fileUri : String)
deriving DecidableEq, Repr

/-- Responses of the remote Gemini file service consumed on the large-file
path: the URI returned by the finalize step, and the number of non-ACTIVE
states waitForFileActive observes before the file becomes ACTIVE. -/
structure RemoteEnv where
  fileUri : String
  processingPolls : Nat
deriving DecidableEq, Repr

/-- Model of the file-handling phase of analyzeVideoScript
(geminiService.ts lines 190-219): the ordered list of transfer actions it
performs and the video part it sends.  Small files (size strictly below
INLINE_SIZE_LIMIT) are read whole and sent inline; large files go through
uploadFileToGemini (start POST then transfer PUT) and then waitForFileActive,
which fetches the status once per loop iteration until the state is ACTIVE
(processingPolls non-ACTIVE responses followed by one ACTIVE response). -/
def analyzeUploadPlan (f : File) (env : RemoteEnv) : List UploadStep × Part :=
  if f.size < INLINE_SIZE_LIMIT then
    ([UploadStep.readFileBase64],
     Part.inlineData (strOrElse f.type "video/mp4") (fileToBase64 f))
  else
    ([UploadStep.resumableStart, UploadStep.resumableTransfer]
       ++ List.replicate (env.processingPolls + 1) UploadStep.pollStatus,
     Part.fileData (strOrElse f.type "video/mp4") env.fileUri)

/-! Response handling of analyzeVideoScript (lines 248-266). -/

/-- Shallow JSON value, the result of a successful JSON.parse. -/
inductive Json where
  | null
  | bool (b : Bool)
  | num (n : Int)
  | str (s : String)
  | arr (xs : List Json)
  | obj (fields : List (String × Json))

/-- Field lookup in a JSON object, first match wins. -/
def jsonGet (fields : List (String × Json)) (k : String) : Option Json :=
  (fields.find? (fun p => p.1 = k)).map Prod.snd

/-- Test for a JSON string. -/
def jsonIsStr : Option Json → Bool
  | some (Json.str _) => true
  | _ => false

/-- Test for a JSON integer. -/
def jsonIsInt : Option Json → Bool
  | some (Json.num _) => true
  | _ => false

/-- Modelled from the response schema declared in geminiService.ts lines
10-39: a scene object carries the required fields id (integer), timeRange,
visualDescription, cameraMovement, aiImagePrompt and aiVideoPrompt
(strings). -/
def sceneHasRequiredFields : Json → Bool
  | Json.obj fs =>
      jsonIsInt (jsonGet fs "id")
        && jsonIsStr (jsonGet fs "timeRange")
        && jsonIsStr (jsonGet fs "visualDescription")
        && jsonIsStr (jsonGet fs "cameraMovement")
        && jsonIsStr (jsonGet fs "aiImagePrompt")
        && jsonIsStr (jsonGet fs "aiVideoPrompt")
  | _ => false

/-- Modelled from the response schema declared in geminiService.ts lines
10-39 and the spec's wording: the expected shape is an object with string
title, string summary, and a scenes array whose every element has all the
required scene fields. -/
def hasExpectedShape : Json → Bool
  | Json.obj fs =>
      jsonIsStr (jsonGet fs "title")
        && jsonIsStr (jsonGet fs "summary")
        && (match jsonGet fs "scenes" with
            | some (Json.arr xs) => xs.all sceneHasRequiredFields
            | _ => false)
  | _ => false

/-- Check that the pattern list occurs as a leading segment of the other
list. -/
def listLeads : List Char → List Char → Bool
  | [], _ => true
  | _ :: _, [] => false
  | p :: ps, x :: xs => p = x && listLeads ps xs

/-- Check that the pattern list occurs contiguously somewhere in the other
list. -/
def listOccurs (pat : List Char) : List Char → Bool
  | [] => listLeads pat []
  | x :: xs => listLeads pat (x :: xs) || listOccurs pat xs

/-- Model of JavaScript String.prototype.includes: substring occurrence. -/
def strIncludes (s pat : String) : Bool := listOccurs pat.toList s.toList

/-- The replacement message thrown by the catch block of analyzeVideoScript
(geminiService.ts line 262). -/
def networkErrorText : String :=
  "Network error during analysis. If the file is large, please ensure your internet connection is stable or try a smaller clip."

/-- Model of the catch block of analyzeVideoScript (geminiService.ts lines
256-266): when the caught error's message contains one of the three
transport-failure substrings, a fresh network-error message is thrown;
otherwise the original error is rethrown unchanged. -/
def classifyAnalysisError (msg : String) : String :=
  if strIncludes msg "Rpc failed" || strIncludes msg "xhr error"
      || strIncludes msg "code: 6" then
    networkErrorText
  else
    msg

/-- Model of the response handling of analyzeVideoScript (geminiService.ts
lines 248-266).  The text argument is response.text; the parsed argument is
the outcome of the runtime primitive JSON.parse on that text (a syntax
error message, or the parsed JSON value).  A missing text throws; a parse
failure throws; a successfully parsed value is returned as-is, because the
cast (as AnalysisResult) performs no runtime validation.  Every thrown
message then passes through the catch block's substring heuristic. -/
def analyzeResponseText (text : Option String) (parsed : Except String Json) :
    Except String Json :=
  let raw : Except String Json :=
    match text with
    | none => Except.error "No response text received from Gemini."
    | some _ => parsed
  match raw with
  | Except.error m => Except.error (classifyAnalysisError m)
  | Except.ok j => Except.ok j

/-! Embedding of generateVeoVideo (geminiService.ts lines 269-338). -/

/-- The fields of a Veo long-running operation that generateVeoVideo
inspects: the done flag, the embedded error message, and the generated
video URI of the response. -/
structure VideoOperation where
  done : Bool
  errorMsg : Option String
  videoUri : Option String
deriving DecidableEq, Repr

/-- One externally visible action of generateVeoVideo after the initial
generateVideos request. -/
inductive VeoEvent where
  /-- A timer wait of the given number of milliseconds. -/
  | wait (ms : Nat)
  /-- One getVideosOperation status fetch. -/
  | statusFetch
  /-- The single fetch of the video bytes at the given URI. -/
  | binaryDownload (uri : String)
deriving DecidableEq, Repr

/-- Model of the polling loop of generateVeoVideo (lines 309-313): while
the operation is not done, wait 5000 ms then fetch the operation status.
The polls list holds the successive states the status endpoint returns;
none means the environment's listed responses ran out with the operation
still incomplete (the real loop would keep polling). -/
def pollVideosOperation (op : VideoOperation) (polls : List VideoOperation) :
    Option (VideoOperation × List VeoEvent) :=
  if op.done then
    some (op, [])
  else
    match polls with
    | [] => none
    | p :: ps =>
        match pollVideosOperation p ps with
        | none => none
        | some (finalOp, evs) =>
            some (finalOp, VeoEvent.wait 5000 :: VeoEvent.statusFetch :: evs)

/-- Model of generateVeoVideo after the initial generateVideos request
(geminiService.ts lines 307-332): poll until done, fail on an embedded
operation error, fail when no video URI is present, otherwise download the
video bytes exactly once (downloadOk is the ok flag of that fetch) and
return a local handle to them.  The returned list is the ordered trace of
waits, status fetches and downloads performed. -/
def generateVeoVideo (initOp : VideoOperation) (polls : List VideoOperation)
    (downloadOk : Bool) : Option (List VeoEvent × Except String String) :=
  match pollVideosOperation initOp polls with
  | none => none
  | some (finalOp, evs) =>
      match finalOp.errorMsg with
      | some m => some (evs, Except.error ("Veo generation failed: " ++ m))
      | none =>
          match finalOp.videoUri with
          | none => some (evs, Except.error "No video URI returned from Veo.")
          | some uri =>
              if downloadOk then
                some (evs ++ [VeoEvent.binaryDownload uri], Except.ok uri)
              else
                some (evs ++ [VeoEvent.binaryDownload uri],
                      Except.error "Failed to download generated video: ")

/-! Embedding of src/components/VideoUploader.tsx. -/

/-- MAX_SIZE_MB from VideoUploader.tsx line 11. -/
def MAX_SIZE_MB : Nat := 200

/-- MAX_SIZE_BYTES from VideoUploader.tsx line 12. -/
def MAX_SIZE_BYTES : Nat := MAX_SIZE_MB * 1024 * 1024

/-- INLINE_THRESHOLD_BYTES from VideoUploader.tsx line 14. -/
def INLINE_THRESHOLD_BYTES : Nat := 10 * 1024 * 1024

/-- Model of handleFileChange (VideoUploader.tsx lines 17-54).  The
previewUrl argument stands for the object URL the browser mints for the
file.  An error result is the alert path, on which onFileSelect is never
invoked; an ok result is the VideoFile passed to onFileSelect.  Small
files carry their base64 data; files at or above the inline threshold are
handed over with base64Data explicitly undefined. -/
def handleFileChange (f : File) (previewUrl : String) : Except String VideoFile :=
  if f.size > MAX_SIZE_BYTES then
    Except.error ("File size too large. Please upload a video smaller than "
      ++ toString MAX_SIZE_MB ++ "MB.")
  else if f.size < INLINE_THRESHOLD_BYTES then
    Except.ok { file := f, previewUrl := previewUrl,
                base64Data := some (fileToBase64 f), mimeType := f.type }
  else
    Except.ok { file := f, previewUrl := previewUrl,
                base64Data := none, mimeType := f.type }

/-! Embedding of src/components/AnalysisResultView.tsx. -/

/-- Model of handleVideoGenerated (AnalysisResultView.tsx lines 32-37):
the generatedVideos record maps a scene id to the last generated clip URL,
later insertions overwriting earlier ones for the same key. -/
def handleVideoGenerated (prev : Int → Option String) (sceneId : Int)
    (url : String) : Int → Option String :=
  fun j => if j = sceneId then some url else prev j

/-- The empty generatedVideos record. -/
def emptyGeneratedVideos : Int → Option String := fun _ => none

/-- The generatedVideos record after a sequence of generation calls, each
call recorded as a (scene id, clip URL) pair in call order. -/
def buildGeneratedVideos (calls : List (Int × String)) : Int → Option String :=
  calls.foldl (fun acc c => handleVideoGenerated acc c.1 c.2)
    emptyGeneratedVideos

/-- Relation used by the sort call of handleMergeVideos: the comparator
(a, b) maps to a.id - b.id, i.e. ascending scene id. -/
def sceneIdLE (a b : StoryboardScene) : Prop := a.id ≤ b.id

instance : DecidableRel sceneIdLE := fun a b => Int.decLe a.id b.id

instance : IsTotal StoryboardScene sceneIdLE := ⟨fun a b => Int.le_total a.id b.id⟩

instance : IsTrans StoryboardScene sceneIdLE := ⟨fun _ _ _ h1 h2 => le_trans h1 h2⟩

/-- Model of the sort call of handleMergeVideos (AnalysisResultView.tsx
line 48): localResult.scenes.sort with comparator a.id - b.id, a stable
in-place sort into ascending scene-id order. -/
def sortScenesById (scenes : List StoryboardScene) : List StoryboardScene :=
  List.insertionSort sceneIdLE scenes

/-- Model of the clip-list computation of handleMergeVideos
(AnalysisResultView.tsx lines 48-51): sort the scenes by ascending id, map
each scene to its generated clip URL, and keep only the scenes that have
one. -/
def videoUrlsToMerge (scenes : List StoryboardScene)
    (generatedVideos : Int → Option String) : List String :=
  (sortScenesById scenes).filterMap (fun s => generatedVideos s.id)

/-- The component state that handleMergeVideos reads and writes: the
locally held scene list (mutated in place by the sort call), the isMerging
flag, the merged-output object URL, the progress message, and the alerts
surfaced to the user so far. -/
structure MergeView where
  scenes : List StoryboardScene
  isMerging : Bool
  mergedVideoUrl : Option String
  mergeProgress : String
  alerts : List String
deriving DecidableEq, Repr

/-- Outcome of the capture body of handleMergeVideos (AnalysisResultView
lines 59-127): the canvas/recorder pipeline either completes and yields
the object URL of the assembled blob, or throws with some message. -/
inductive MergeBodyOutcome where
  | success (finalUrl : String)
  | failure (errMsg : String)
deriving DecidableEq, Repr

/-- The alert message of the catch block of handleMergeVideos
(AnalysisResultView.tsx line 131). -/
def mergeFailedAlert : String :=
  "Failed to merge videos. Please check console for details."

/-- Model of handleMergeVideos (AnalysisResultView.tsx lines 46-136).  The
sort call mutates localResult.scenes in place before anything else.  When
no scene has a generated clip the function returns at line 53, before
touching the merging flag, the progress message or the merged URL.
Otherwise the flag is raised, the merged URL cleared and the progress set;
the capture body then runs (its outcome is passed in abstractly, since it
is DOM media machinery): on success the merged URL is set to the assembled
blob's object URL, on an exception the generic alert is surfaced and the
merged URL stays cleared; the finally block always lowers the flag and
clears the progress message. -/
def handleMergeVideos (st : MergeView) (generatedVideos : Int → Option String)
    (body : MergeBodyOutcome) : MergeView :=
  let orderedScenes := sortScenesById st.scenes
  let urls := orderedScenes.filterMap (fun s => generatedVideos s.id)
  if urls.isEmpty then
    { st with scenes := orderedScenes }
  else
    match body with
    | MergeBodyOutcome.success finalUrl =>
        { scenes := orderedScenes, isMerging := false,
          mergedVideoUrl := some finalUrl, mergeProgress := "",
          alerts := st.alerts }
    | MergeBodyOutcome.failure _ =>
        { scenes := orderedScenes, isMerging := false,
          mergedVideoUrl := none, mergeProgress := "",
          alerts := st.alerts ++ [mergeFailedAlert] }

/-- Model of handleSceneUpdate (AnalysisResultView.tsx lines 39-44):
replace every scene whose id matches the updated scene's id, leave all
others in place. -/
def handleSceneUpdate (prev : AnalysisResult) (updatedScene : StoryboardScene) :
    AnalysisResult :=
  { prev with
    scenes := prev.scenes.map
      (fun s => if s.id = updatedScene.id then updatedScene else s) }

/-- The event trace of n iterations of the generateVeoVideo polling loop:
each iteration waits 5000 ms and then fetches the operation status once. -/
def pollTraceEvents : Nat → List VeoEvent
  | 0 => []
  | n + 1 => VeoEvent.wait 5000 :: VeoEvent.statusFetch :: pollTraceEvents n

/-- Recognizer for status-fetch events. -/
def isStatusFetch : VeoEvent → Bool
  | VeoEvent.statusFetch => true
  | _ => false

/-- Recognizer for binary-download events. -/
def isBinaryDownload : VeoEvent → Bool
  | VeoEvent.binaryDownload _ => true
  | _ => false

/-- The clip URL a sequence of generation calls leaves under a scene id:
the value of the last call for that id, if any.  This is the reference
reading of the overwrite semantics of handleVideoGenerated. -/
def lastLookup : List (Int × String) → Int → Option String
  | [], _ => none
  | c :: rest, j =>
      match lastLookup rest j with
      | some u => some u
      | none => if c.1 = j then some c.2 else none

/-! Concrete data used to evaluate the development on closed inputs. -/

/-- A storyboard scene with the given id and fixed textual fields. -/
def demoScene (i : Int) : StoryboardScene :=
  { id := i, timeRange := "00:00 - 00:05", visualDescription := "a skyline",
    cameraMovement := "slow pan", aiImagePrompt := "city at dusk",
    aiVideoPrompt := "drone flyover", voiceoverScript := none }

/-- A small file: 3 bytes, well below the inline threshold. -/
def smallDemoFile : File :=
  { name := "small.mp4", type := "video/mp4", size := 3,
    content := [77, 97, 110] }

/-- A mid-size file: 50 MiB, above the inline threshold and below the
uploader cap. -/
def midDemoFile : File :=
  { name := "mid.mp4", type := "video/mp4", size := 52428800, content := [] }

/-- An oversized file: 250 MiB, above the uploader cap. -/
def hugeDemoFile : File :=
  { name := "huge.mp4", type := "video/mp4", size := 262144000, content := [] }

/-- A remote environment answering one PROCESSING state before ACTIVE. -/
def demoRemoteEnv : RemoteEnv :=
  { fileUri := "files/demo-upload", processingPolls := 1 }

/-- A valid JSON object that carries title and summary but no scenes
field. -/
def jsonMissingScenes : Json :=
  Json.obj [("title", Json.str "A title"), ("summary", Json.str "A summary")]

end ViralReplicator

namespace ViralReplicator

/-- C1: the claim says that an analysis response whose text is valid JSON
but lacks the scenes field fails with a ParseError.  The code contradicts
this: JSON.parse succeeds on the valid JSON, the cast (as AnalysisResult)
performs no runtime validation, and the value is returned.  This closed
counterexample evaluates the response handling at a valid-JSON payload
that has no scenes field (hence not the expected shape) and observes a
returned value, not an error. -/
theorem c1_missing_scenes_counterexample :
    analyzeResponseText
        (some "\x7b\"title\":\"A title\",\"summary\":\"A summary\"\x7d")
        (Except.ok jsonMissingScenes)
      = Except.ok jsonMissingScenes
    ∧ hasExpectedShape jsonMissingScenes = false
    ∧ (match jsonMissingScenes with
       | Json.obj fs => jsonGet fs "scenes"
       | _ => none) = none := by
  refine ⟨rfl, ?_, ?_⟩ <;> rfl

/-- C1 (amended): analyzeVideoScript throws only when the response has no
text payload or when the text is not valid JSON (JSON.parse raises); a
text payload that parses as JSON is returned as-is through the unchecked
cast, whatever its shape — in particular a valid-JSON response missing
scenes is returned, not rejected. -/
theorem c1_amended_parse_behavior (text : String) (j : Json) (e : String)
    (p : Except String Json) :
    analyzeResponseText (some text) (Except.ok j) = Except.ok j
    ∧ analyzeResponseText (some text) (Except.error e)
        = Except.error (classifyAnalysisError e)
    ∧ analyzeResponseText none p
        = Except.error "No response text received from Gemini." := by
  refine ⟨rfl, rfl, ?_⟩
  show Except.error
      (classifyAnalysisError "No response text received from Gemini.") = _
  rfl

/-- C5: when the caught error's message contains one of the substrings
"Rpc failed", "xhr error" or "code: 6", the catch block of
analyzeVideoScript throws the fixed network-error message, which starts
with "Network error" and hints at retrying with a smaller clip; any other
error is rethrown with its message unchanged.  The last conjunct ties the
heuristic to the response pipeline: every error leaving
analyzeVideoScript passes through it. -/
theorem c5_network_error_heuristic (msg : String) :
    ((strIncludes msg "Rpc failed" || strIncludes msg "xhr error"
        || strIncludes msg "code: 6") = true →
      classifyAnalysisError msg = networkErrorText
      ∧ strIncludes networkErrorText "Network error" = true
      ∧ strIncludes networkErrorText "smaller" = true)
    ∧ ((strIncludes msg "Rpc failed" || strIncludes msg "xhr error"
        || strIncludes msg "code: 6") = false →
      classifyAnalysisError msg = msg)
    ∧ (∀ t : String, analyzeResponseText (some t) (Except.error msg)
        = Except.error (classifyAnalysisError msg)) := by
  refine ⟨fun h => ⟨?_, by decide, by decide⟩, fun h => ?_, fun t => rfl⟩
  · simp [classifyAnalysisError, h]
  · simp [classifyAnalysisError, h]

/-- Closed witness for c5_network_error_heuristic: a transport-style
message is replaced by the network-error hint, a plain message passes
through unchanged. -/
theorem c5_network_error_heuristic_witness :
    classifyAnalysisError "Rpc failed at stage 2" = networkErrorText
    ∧ classifyAnalysisError "quota exceeded" = "quota exceeded" := by
  exact ⟨((c5_network_error_heuristic "Rpc failed at stage 2").1 (by decide)).1,
         (c5_network_error_heuristic "quota exceeded").2.1 (by decide)⟩

/-- C7: handleSceneUpdate leaves the title and summary unchanged, keeps
the scene list's length, and at every position keeps the scene unchanged
unless its id matches the updated scene's id, in which case the updated
scene takes its place — so non-matching scenes keep all their fields and
the relative ordering of scenes is preserved. -/
theorem c7_scene_update_frame (prev : AnalysisResult) (u : StoryboardScene) :
    (handleSceneUpdate prev u).title = prev.title
    ∧ (handleSceneUpdate prev u).summary = prev.summary
    ∧ (handleSceneUpdate prev u).scenes.length = prev.scenes.length
    ∧ ∀ (i : Nat) (s : StoryboardScene), prev.scenes[i]? = some s →
        (handleSceneUpdate prev u).scenes[i]?
          = some (if s.id = u.id then u else s) := by
  refine ⟨rfl, rfl, by simp [handleSceneUpdate], fun i s h => ?_⟩
  simp [handleSceneUpdate, List.getElem?_map, h]

/-- Closed witness for c7_scene_update_frame: updating scene 2's visual
description in a two-scene storyboard leaves scene 1 untouched at its
position and replaces scene 2 at its position. -/
theorem c7_scene_update_frame_witness :
    (handleSceneUpdate
        { title := "t", summary := "s", scenes := [demoScene 1, demoScene 2] }
        { demoScene 2 with visualDescription := "edited" }).scenes[0]?
      = some (demoScene 1)
    ∧ (handleSceneUpdate
        { title := "t", summary := "s", scenes := [demoScene 1, demoScene 2] }
        { demoScene 2 with visualDescription := "edited" }).scenes[1]?
      = some { demoScene 2 with visualDescription := "edited" } := by
  constructor
  · have h := (c7_scene_update_frame
      { title := "t", summary := "s", scenes := [demoScene 1, demoScene 2] }
      { demoScene 2 with visualDescription := "edited" }).2.2.2 0 (demoScene 1)
      (by decide)
    simpa using h
  · have h := (c7_scene_update_frame
      { title := "t", summary := "s", scenes := [demoScene 1, demoScene 2] }
      { demoScene 2 with visualDescription := "edited" }).2.2.2 1 (demoScene 2)
      (by decide)
    simpa using h

/-- C2: analyzeVideoScript branches on the file size against the 10 MB
inline threshold.  Below the threshold it reads the whole file,
base64-encodes its content and sends it inline, performing none of the
resumable steps; at or above the threshold it performs the resumable start
and transfer, then polls the file status until it is ACTIVE, and sends a
remote file reference instead. -/
theorem c2_size_branching (f : File) (env : RemoteEnv) :
    (f.size < INLINE_SIZE_LIMIT →
      (analyzeUploadPlan f env).1 = [UploadStep.readFileBase64]
      ∧ (analyzeUploadPlan f env).2
          = Part.inlineData (strOrElse f.type "video/mp4") (base64Encode f.content)
      ∧ UploadStep.resumableStart ∉ (analyzeUploadPlan f env).1
      ∧ UploadStep.resumableTransfer ∉ (analyzeUploadPlan f env).1
      ∧ UploadStep.pollStatus ∉ (analyzeUploadPlan f env).1)
    ∧ (INLINE_SIZE_LIMIT ≤ f.size →
      (analyzeUploadPlan f env).1
        = [UploadStep.resumableStart, UploadStep.resumableTransfer]
            ++ List.replicate (env.processingPolls + 1) UploadStep.pollStatus
      ∧ (analyzeUploadPlan f env).2
          = Part.fileData (strOrElse f.type "video/mp4") env.fileUri) := by
  constructor
  · intro h
    simp [analyzeUploadPlan, h, fileToBase64]
  · intro h
    have h' : ¬ f.size < INLINE_SIZE_LIMIT := Nat.not_lt.mpr h
    simp [analyzeUploadPlan, h']

/-- Closed witness for c2_size_branching: a 3-byte file goes inline with
its base64 content and no resumable step; a 50 MiB file performs start,
transfer and two status polls and sends the remote reference. -/
theorem c2_size_branching_witness :
    (analyzeUploadPlan smallDemoFile demoRemoteEnv).1 = [UploadStep.readFileBase64]
    ∧ (analyzeUploadPlan smallDemoFile demoRemoteEnv).2
        = Part.inlineData "video/mp4" "TWFu"
    ∧ (analyzeUploadPlan midDemoFile demoRemoteEnv).1
        = [UploadStep.resumableStart, UploadStep.resumableTransfer,
           UploadStep.pollStatus, UploadStep.pollStatus]
    ∧ (analyzeUploadPlan midDemoFile demoRemoteEnv).2
        = Part.fileData "video/mp4" "files/demo-upload" := by
  refine ⟨((c2_size_branching smallDemoFile demoRemoteEnv).1 (by decide)).1,
          ?_, ?_, ?_⟩
  · have h := ((c2_size_branching smallDemoFile demoRemoteEnv).1 (by decide)).2.1
    simpa using h
  · have h := ((c2_size_branching midDemoFile demoRemoteEnv).2 (by decide)).1
    simpa [demoRemoteEnv] using h
  · have h := ((c2_size_branching midDemoFile demoRemoteEnv).2 (by decide)).2
    simpa [demoRemoteEnv, midDemoFile, strOrElse] using h

/-- C8: the VideoUploader rejects any file strictly larger than 200 MB
with an alert and never invokes onFileSelect, so analysis never starts for
such files; a file between the 10 MB inline threshold and the 200 MB cap
is handed to onFileSelect with base64Data explicitly undefined; a smaller
file is handed over with its base64 data.  Consequently, for any file the
uploader accepts, the analysis service's resumable path is taken exactly
when the size lies in the 10 MB to 200 MB range. -/
theorem c8_uploader_size_gate (f : File) (url : String) :
    (MAX_SIZE_BYTES < f.size →
      handleFileChange f url = Except.error
        ("File size too large. Please upload a video smaller than "
          ++ toString MAX_SIZE_MB ++ "MB."))
    ∧ (INLINE_THRESHOLD_BYTES ≤ f.size → f.size ≤ MAX_SIZE_BYTES →
      handleFileChange f url = Except.ok
        { file := f, previewUrl := url, base64Data := none, mimeType := f.type })
    ∧ (f.size < INLINE_THRESHOLD_BYTES →
      handleFileChange f url = Except.ok
        { file := f, previewUrl := url,
          base64Data := some (fileToBase64 f), mimeType := f.type })
    ∧ (∀ (vf : VideoFile) (env : RemoteEnv), handleFileChange f url = Except.ok vf →
        (UploadStep.resumableStart ∈ (analyzeUploadPlan vf.file env).1 ↔
          INLINE_THRESHOLD_BYTES ≤ f.size ∧ f.size ≤ MAX_SIZE_BYTES)) := by
  refine ⟨fun h => ?_, fun h1 h2 => ?_, fun h => ?_, fun vf env hok => ?_⟩
  · simp [handleFileChange, h]
  · have hgt : ¬ f.size > MAX_SIZE_BYTES := Nat.not_lt.mpr h2
    have hlt : ¬ f.size < INLINE_THRESHOLD_BYTES := Nat.not_lt.mpr h1
    simp [handleFileChange, hgt, hlt]
  · by_cases hgt : f.size > MAX_SIZE_BYTES
    · exact absurd (lt_trans (by decide : INLINE_THRESHOLD_BYTES < MAX_SIZE_BYTES) hgt)
        (Nat.not_lt.mpr (Nat.le_of_lt h))
    · simp [handleFileChange, hgt, h]
  · have hle : f.size ≤ MAX_SIZE_BYTES := by
      by_contra hgt
      have hgt' : f.size > MAX_SIZE_BYTES := Nat.not_le.mp hgt
      simp [handleFileChange, hgt'] at hok
    have hfile : vf.file = f := by
      by_cases hlt : f.size < INLINE_THRESHOLD_BYTES
      · simp [handleFileChange, Nat.not_lt.mpr hle, hlt] at hok
        rw [← hok]
      · simp [handleFileChange, Nat.not_lt.mpr hle, hlt] at hok
        rw [← hok]
    rw [hfile]
    by_cases hlt : f.size < INLINE_THRESHOLD_BYTES
    · have : ¬ INLINE_THRESHOLD_BYTES ≤ f.size := Nat.not_le.mpr hlt
      simp [analyzeUploadPlan, show f.size < INLINE_SIZE_LIMIT from hlt, this]
    · have hge : INLINE_SIZE_LIMIT ≤ f.size := Nat.not_lt.mp hlt
      simp [analyzeUploadPlan, Nat.not_lt.mpr hge, Nat.not_lt.mp hlt, hle]

/-- Closed witness for c8_uploader_size_gate: a 250 MiB file is rejected
with the alert; a 50 MiB file is accepted with undefined base64Data, and
its analysis plan takes the resumable path; a 3-byte file is accepted with
its base64 data. -/
theorem c8_uploader_size_gate_witness :
    handleFileChange hugeDemoFile "blob:huge" = Except.error
      ("File size too large. Please upload a video smaller than "
        ++ toString MAX_SIZE_MB ++ "MB.")
    ∧ handleFileChange midDemoFile "blob:mid" = Except.ok
        { file := midDemoFile, previewUrl := "blob:mid",
          base64Data := none, mimeType := "video/mp4" }
    ∧ handleFileChange smallDemoFile "blob:small" = Except.ok
        { file := smallDemoFile, previewUrl := "blob:small",
          base64Data := some "TWFu", mimeType := "video/mp4" }
    ∧ (UploadStep.resumableStart ∈
        (analyzeUploadPlan midDemoFile demoRemoteEnv).1 ↔
          INLINE_THRESHOLD_BYTES ≤ midDemoFile.size
          ∧ midDemoFile.size ≤ MAX_SIZE_BYTES) := by
  refine ⟨(c8_uploader_size_gate hugeDemoFile "blob:huge").1 (by decide),
          ?_, ?_, ?_⟩
  · have h := (c8_uploader_size_gate midDemoFile "blob:mid").2.1
      (by decide) (by decide)
    simpa [midDemoFile] using h
  · have h := (c8_uploader_size_gate smallDemoFile "blob:small").2.2.1 (by decide)
    simpa [smallDemoFile, fileToBase64] using h
  · exact (c8_uploader_size_gate midDemoFile "blob:mid").2.2.2
      { file := midDemoFile, previewUrl := "blob:mid",
        base64Data := none, mimeType := "video/mp4" } demoRemoteEnv
      (by have h := (c8_uploader_size_gate midDemoFile "blob:mid").2.1
            (by decide) (by decide)
          simpa [midDemoFile] using h)

/-- Unfolding of the polling loop of generateVeoVideo: starting from an
incomplete operation, with every polled state incomplete except a final
complete one, the loop performs one wait-and-fetch iteration per polled
state and ends on the complete state. -/
theorem pollVideosOperation_eq (final : VideoOperation) (hf : final.done = true) :
    ∀ (pending : List VideoOperation) (init : VideoOperation),
      init.done = false → (∀ p ∈ pending, p.done = false) →
      pollVideosOperation init (pending ++ [final])
        = some (final, pollTraceEvents (pending.length + 1))
  | [], init, hi, _ => by
      simp [pollVideosOperation, hi, hf, pollTraceEvents]
  | p :: ps, init, hi, hp => by
      have ih := pollVideosOperation_eq final hf ps p (hp p (by simp))
        (fun q hq => hp q (by simp [hq]))
      simp [pollVideosOperation, hi, ih, pollTraceEvents]

/-- Each polling iteration contributes exactly one status fetch. -/
theorem countP_pollTraceEvents_statusFetch :
    ∀ n, (pollTraceEvents n).countP isStatusFetch = n
  | 0 => rfl
  | n + 1 => by
      simp [pollTraceEvents, List.countP_cons, isStatusFetch,
        countP_pollTraceEvents_statusFetch n]

/-- No polling iteration downloads anything. -/
theorem countP_pollTraceEvents_download :
    ∀ n, (pollTraceEvents n).countP isBinaryDownload = 0
  | 0 => rfl
  | n + 1 => by
      simp [pollTraceEvents, List.countP_cons, isBinaryDownload,
        countP_pollTraceEvents_download n]

/-- C4: for an operation that starts incomplete and flips to complete on
the N-th poll, generateVeoVideo performs exactly N status fetches, each
preceded by a 5000 ms wait, and then exactly one binary download of the
resulting video: its full event trace is N wait-and-fetch iterations
followed by the single download. -/
theorem c4_veo_polling (initOp final : VideoOperation)
    (pending : List VideoOperation) (uri : String) (N : Nat)
    (hi : initOp.done = false)
    (hp : ∀ p ∈ pending, p.done = false)
    (hN : pending.length + 1 = N)
    (hf : final.done = true) (he : final.errorMsg = none)
    (hu : final.videoUri = some uri) :
    generateVeoVideo initOp (pending ++ [final]) true
      = some (pollTraceEvents N ++ [VeoEvent.binaryDownload uri], Except.ok uri)
    ∧ (pollTraceEvents N ++ [VeoEvent.binaryDownload uri]).countP isStatusFetch = N
    ∧ (pollTraceEvents N ++ [VeoEvent.binaryDownload uri]).countP isBinaryDownload
        = 1 := by
  subst hN
  have hpoll := pollVideosOperation_eq final hf pending initOp hi hp
  refine ⟨?_, ?_, ?_⟩
  · simp [generateVeoVideo, hpoll, he, hu]
  · simp [List.countP_append, countP_pollTraceEvents_statusFetch,
      isStatusFetch, List.countP_cons]
  · simp [List.countP_append, countP_pollTraceEvents_download,
      isBinaryDownload, List.countP_cons]

/-- Closed witness for c4_veo_polling: an operation that completes on the
second poll yields two wait-and-fetch iterations and one download. -/
theorem c4_veo_polling_witness :
    generateVeoVideo ⟨false, none, none⟩
        ([⟨false, none, none⟩] ++ [⟨true, none, some "vid-uri"⟩]) true
      = some (pollTraceEvents 2 ++ [VeoEvent.binaryDownload "vid-uri"],
              Except.ok "vid-uri") := by
  exact (c4_veo_polling ⟨false, none, none⟩ ⟨true, none, some "vid-uri"⟩
    [⟨false, none, none⟩] "vid-uri" 2 rfl (by decide) rfl rfl rfl rfl).1

/-- The generatedVideos record built by a sequence of generation calls
maps each scene id to the last call recorded for it. -/
theorem foldl_handleVideoGenerated :
    ∀ (calls : List (Int × String)) (acc : Int → Option String) (j : Int),
      calls.foldl (fun acc c => handleVideoGenerated acc c.1 c.2) acc j
        = match lastLookup calls j with
          | some u => some u
          | none => acc j
  | [], acc, j => by simp [lastLookup]
  | c :: rest, acc, j => by
      have ih := foldl_handleVideoGenerated rest
        (handleVideoGenerated acc c.1 c.2) j
      simp only [List.foldl_cons] at *
      rw [ih]
      cases hr : lastLookup rest j with
      | some u => simp [lastLookup, hr]
      | none =>
          simp only [lastLookup, hr, handleVideoGenerated]
          by_cases hj : c.1 = j
          · rw [if_pos hj.symm, if_pos hj]
          · have hj' : ¬ j = c.1 := fun h => hj h.symm
            simp [hj, hj']

/-- With no scene id generated twice, the record holds a clip for id j
exactly when some call recorded that clip for j. -/
theorem lastLookup_eq_some_iff :
    ∀ (calls : List (Int × String)), (calls.map Prod.fst).Nodup →
      ∀ (j : Int) (u : String),
        (lastLookup calls j = some u ↔ (j, u) ∈ calls)
  | [], _, j, u => by simp [lastLookup]
  | (a, b) :: rest, hnd, j, u => by
      have hnotin : a ∉ rest.map Prod.fst := by
        simpa using (List.nodup_cons.mp hnd).1
      have hrest : (rest.map Prod.fst).Nodup := (List.nodup_cons.mp hnd).2
      have ih := lastLookup_eq_some_iff rest hrest j
      have hstep : lastLookup ((a, b) :: rest) j
          = match lastLookup rest j with
            | some w => some w
            | none => if a = j then some b else none := rfl
      cases hr : lastLookup rest j with
      | none =>
          have hmem : ∀ w : String, (j, w) ∉ rest := fun w hm => by
            have := (ih w).mpr hm
            rw [hr] at this
            cases this
          rw [hstep, hr]
          simp only [List.mem_cons]
          by_cases hj : a = j
          · subst hj
            simp only [eq_self_iff_true, if_true, Option.some.injEq,
              Prod.mk.injEq, true_and]
            constructor
            · intro h
              exact Or.inl h.symm
            · intro h
              rcases h with h | h
              · exact h.symm
              · exact absurd h (hmem u)
          · rw [if_neg hj]
            constructor
            · intro h
              cases h
            · intro h
              rcases h with h | h
              · exact absurd (congrArg Prod.fst h).symm hj
              · exact absurd h (hmem u)
      | some v =>
          have hvmem : (j, v) ∈ rest := (ih v).mp hr
          have hjne : a ≠ j := fun hj => by
            exact hnotin (by
              have := List.mem_map_of_mem Prod.fst hvmem
              simpa [hj] using this)
          rw [hstep, hr]
          simp only [List.mem_cons, Option.some.injEq]
          constructor
          · intro h
            exact Or.inr ((ih u).mp (hr.trans (congrArg some h)))
          · intro h
            rcases h with h | h
            · exact absurd (congrArg Prod.fst h).symm hjne
            · have := (ih u).mpr h
              rw [hr] at this
              exact Option.some.inj this

/-- The generatedVideos record is insensitive to the order of the
generation calls when every scene id is generated at most once. -/
theorem buildGeneratedVideos_perm (calls calls' : List (Int × String))
    (hperm : calls.Perm calls') (hnd : (calls.map Prod.fst).Nodup) (j : Int) :
    buildGeneratedVideos calls j = buildGeneratedVideos calls' j := by
  have hnd' : (calls'.map Prod.fst).Nodup := ((hperm.map Prod.fst).nodup_iff).mp hnd
  have h1 := foldl_handleVideoGenerated calls emptyGeneratedVideos j
  have h2 := foldl_handleVideoGenerated calls' emptyGeneratedVideos j
  unfold buildGeneratedVideos
  rw [h1, h2]
  cases hc : lastLookup calls j with
  | some u =>
      have hm : (j, u) ∈ calls := (lastLookup_eq_some_iff calls hnd j u).mp hc
      have hm' : (j, u) ∈ calls' := hperm.mem_iff.mp hm
      rw [(lastLookup_eq_some_iff calls' hnd' j u).mpr hm']
  | none =>
      have hc' : lastLookup calls' j = none := by
        cases hx : lastLookup calls' j with
        | none => rfl
        | some u =>
            have hm : (j, u) ∈ calls :=
              hperm.mem_iff.mpr ((lastLookup_eq_some_iff calls' hnd' j u).mp hx)
            have := (lastLookup_eq_some_iff calls hnd j u).mpr hm
            rw [hc] at this
            cases this
      rw [hc']

/-- C3: the merge step orders the clips by ascending scene id, not by the
order the clips were generated: the clip list handed to the capture loop
is computed from the id-sorted scene list (whose id sequence is ascending
and which is a permutation of the scene list), and it is unchanged under
any reordering of the generation calls. -/
theorem c3_merge_ascending_scene_id (scenes : List StoryboardScene)
    (calls calls' : List (Int × String))
    (hperm : calls.Perm calls') (hnd : (calls.map Prod.fst).Nodup) :
    videoUrlsToMerge scenes (buildGeneratedVideos calls)
      = videoUrlsToMerge scenes (buildGeneratedVideos calls')
    ∧ ((sortScenesById scenes).map StoryboardScene.id).Sorted (· ≤ ·)
    ∧ (sortScenesById scenes).Perm scenes := by
  refine ⟨?_, ?_, List.perm_insertionSort _ _⟩
  · have hfun : buildGeneratedVideos calls = buildGeneratedVideos calls' :=
      funext (buildGeneratedVideos_perm calls calls' hperm hnd)
    rw [videoUrlsToMerge, videoUrlsToMerge, hfun]
  · exact List.Pairwise.map StoryboardScene.id (fun _ _ h => h)
      (List.sorted_insertionSort sceneIdLE scenes)

/-- Closed witness for c3_merge_ascending_scene_id: with clips for scene
ids 3, 1, 2 generated in that call order, the merged clip list is the same
as for the sorted call order, and it holds clip 1's URL before clip 2's
before clip 3's. -/
theorem c3_merge_ascending_scene_id_witness :
    videoUrlsToMerge [demoScene 3, demoScene 1, demoScene 2]
        (buildGeneratedVideos [(3, "clip3"), (1, "clip1"), (2, "clip2")])
      = videoUrlsToMerge [demoScene 3, demoScene 1, demoScene 2]
        (buildGeneratedVideos [(1, "clip1"), (2, "clip2"), (3, "clip3")])
    ∧ videoUrlsToMerge [demoScene 3, demoScene 1, demoScene 2]
        (buildGeneratedVideos [(3, "clip3"), (1, "clip1"), (2, "clip2")])
      = ["clip1", "clip2", "clip3"] := by
  refine ⟨(c3_merge_ascending_scene_id [demoScene 3, demoScene 1, demoScene 2]
    [(3, "clip3"), (1, "clip1"), (2, "clip2")]
    [(1, "clip1"), (2, "clip2"), (3, "clip3")]
    (by decide) (by decide)).1, by decide⟩

/-- C6: an exception anywhere in the capture body of handleMergeVideos
aborts the merge with the generic alert, leaves the merged-output URL
unset, lowers the merging flag and clears the progress message — no
partial output is exposed. -/
theorem c6_merge_failure_no_partial_output (st : MergeView)
    (gen : Int → Option String) (errMsg : String)
    (h : videoUrlsToMerge st.scenes gen ≠ []) :
    (handleMergeVideos st gen (MergeBodyOutcome.failure errMsg)).mergedVideoUrl
        = none
    ∧ (handleMergeVideos st gen (MergeBodyOutcome.failure errMsg)).isMerging
        = false
    ∧ (handleMergeVideos st gen (MergeBodyOutcome.failure errMsg)).mergeProgress
        = ""
    ∧ (handleMergeVideos st gen (MergeBodyOutcome.failure errMsg)).alerts
        = st.alerts ++ [mergeFailedAlert] := by
  have hne : ((sortScenesById st.scenes).filterMap (fun s => gen s.id)).isEmpty
      = false := by
    rw [List.isEmpty_eq_false]
    simpa [videoUrlsToMerge] using h
  refine ⟨?_, ?_, ?_, ?_⟩ <;> simp [handleMergeVideos, hne]

/-- Closed witness for c6_merge_failure_no_partial_output: a one-scene
storyboard with a generated clip, a previously merged URL in state, and a
failing capture body end up with no merged URL and the generic alert. -/
theorem c6_merge_failure_no_partial_output_witness :
    (handleMergeVideos
        { scenes := [demoScene 1], isMerging := false,
          mergedVideoUrl := some "blob:old", mergeProgress := "",
          alerts := [] }
        (buildGeneratedVideos [(1, "clip1")])
        (MergeBodyOutcome.failure "decoder blew up")).mergedVideoUrl = none
    ∧ (handleMergeVideos
        { scenes := [demoScene 1], isMerging := false,
          mergedVideoUrl := some "blob:old", mergeProgress := "",
          alerts := [] }
        (buildGeneratedVideos [(1, "clip1")])
        (MergeBodyOutcome.failure "decoder blew up")).alerts
      = [mergeFailedAlert] := by
  have h := c6_merge_failure_no_partial_output
    { scenes := [demoScene 1], isMerging := false,
      mergedVideoUrl := some "blob:old", mergeProgress := "", alerts := [] }
    (buildGeneratedVideos [(1, "clip1")]) "decoder blew up" (by decide)
  exact ⟨h.1, by simpa using h.2.2.2⟩

/-- C9: invoking handleMergeVideos rewrites the locally held scene list,
whatever the outcome: afterwards it is the id-sorted version of what it
was — a permutation of the original scenes with each scene's fields
untouched and ascending ids — and on the concrete list with ids 3, 1, 2
the sorted list differs from the original, so the merge is not
side-effect-free on the scene ordering. -/
theorem c9_merge_sorts_scenes_in_place (st : MergeView)
    (gen : Int → Option String) (body : MergeBodyOutcome) :
    (handleMergeVideos st gen body).scenes = sortScenesById st.scenes
    ∧ (sortScenesById st.scenes).Perm st.scenes
    ∧ ((sortScenesById st.scenes).map StoryboardScene.id).Sorted (· ≤ ·)
    ∧ sortScenesById [demoScene 3, demoScene 1, demoScene 2]
        = [demoScene 1, demoScene 2, demoScene 3]
    ∧ [demoScene 3, demoScene 1, demoScene 2]
        ≠ [demoScene 1, demoScene 2, demoScene 3] := by
  refine ⟨?_, List.perm_insertionSort _ _,
    List.Pairwise.map StoryboardScene.id (fun _ _ h => h)
      (List.sorted_insertionSort sceneIdLE st.scenes),
    by decide, by decide⟩
  simp only [handleMergeVideos]
  split
  · rfl
  · split <;> rfl

/-- C10: when no scene in the storyboard has a generated clip,
handleMergeVideos returns before the capture body ever runs (the result
does not depend on the body's outcome), and the merging flag, the progress
message, the merged-output URL and the alerts are all left exactly as they
were. -/
theorem c10_merge_noop_without_clips (st : MergeView)
    (gen : Int → Option String)
    (h : ∀ s ∈ st.scenes, gen s.id = none) (body body' : MergeBodyOutcome) :
    handleMergeVideos st gen body = { st with scenes := sortScenesById st.scenes }
    ∧ handleMergeVideos st gen body = handleMergeVideos st gen body'
    ∧ (handleMergeVideos st gen body).isMerging = st.isMerging
    ∧ (handleMergeVideos st gen body).mergedVideoUrl = st.mergedVideoUrl
    ∧ (handleMergeVideos st gen body).mergeProgress = st.mergeProgress
    ∧ (handleMergeVideos st gen body).alerts = st.alerts := by
  have hempty : (sortScenesById st.scenes).filterMap (fun s => gen s.id) = [] := by
    rw [List.filterMap_eq_nil_iff]
    intro a ha
    exact h a ((List.perm_insertionSort sceneIdLE st.scenes).mem_iff.mp ha)
  have hmain : ∀ b : MergeBodyOutcome, handleMergeVideos st gen b
      = { st with scenes := sortScenesById st.scenes } := by
    intro b
    simp [handleMergeVideos, hempty]
  refine ⟨hmain body, (hmain body).trans (hmain body').symm, ?_, ?_, ?_, ?_⟩
    <;> rw [hmain body]

/-- Closed witness for c10_merge_noop_without_clips: with a two-scene
storyboard, no generated clips and a capture body that would succeed, the
merge only leaves the scene list sorted and changes nothing else. -/
theorem c10_merge_noop_without_clips_witness :
    handleMergeVideos
        { scenes := [demoScene 2, demoScene 1], isMerging := false,
          mergedVideoUrl := none, mergeProgress := "", alerts := [] }
        emptyGeneratedVideos (MergeBodyOutcome.success "blob:final")
      = { scenes := [demoScene 1, demoScene 2], isMerging := false,
          mergedVideoUrl := none, mergeProgress := "", alerts := [] } := by
  have h := (c10_merge_noop_without_clips
    { scenes := [demoScene 2, demoScene 1], isMerging := false,
      mergedVideoUrl := none, mergeProgress := "", alerts := [] }
    emptyGeneratedVideos (by decide)
    (MergeBodyOutcome.success "blob:final")
    (MergeBodyOutcome.failure "unused")).1
  exact h.trans (by decide)

end ViralReplicator
